import Mathlib

/-!
Shallow embedding of the disruption-voucher prototype
(`src/types.ts`, `src/mocks/handlers.ts`, `src/routes/IssueWizard.tsx`,
`src/routes/Offline.tsx`, `src/store/useOfflineQueue.ts`, `src/store/auth.ts`).

Pure record types mirror the TypeScript interfaces; the mocked REST
handlers become functions on an explicit in-memory issuance list; the
React components' pure computations (duplicate detection, row building,
queue replay) become functions of their inputs.  Randomness
(`Math.random`, `crypto.randomUUID`) and network outcomes are passed in
as explicit parameters.
-/

namespace Voucher

/-- `VoucherType` union from `src/types.ts`. -/
inductive VoucherType
  | MEAL
  | UBER
  | CABCHARGE
deriving DecidableEq, Repr

/-- `Issuance.status` union from `src/types.ts`. -/
inductive IssuanceStatus
  | issued
  | redeemed
  | expired
  | void
deriving DecidableEq, Repr

/-- `Role` union from `src/types.ts`. -/
inductive Role
  | CSA
  | SUPERVISOR
  | FINANCE
  | ADMIN
deriving DecidableEq, Repr

/-- `Flight.disruptionCategory` union from `src/types.ts`. -/
inductive DisruptionCategory
  | DLY_2H
  | DLY_4H
  | CANCEL
deriving DecidableEq, Repr

/-- `Flight` interface from `src/types.ts`. -/
structure Flight where
  id : String
  flightNumber : String
  date : String
  origin : String
  destination : String
  depTime : String
  arrTime : String
  status : String
  reason : Option String := none
  disruptionCategory : Option DisruptionCategory := none
deriving DecidableEq, Repr

/-- `Passenger` interface from `src/types.ts` (UI-only decoration fields
such as `qffTier`/`ssrCodes` are kept as plain data). -/
structure Passenger where
  id : String
  pnr : String
  name : String
  seat : String
  boarded : Bool
  cabin : String
  qffTier : Option String := none
  transiting : Option Bool := none
  transitTimePeriod : Option String := none
  contactEmail : Option String := none
  contactPhone : Option String := none
deriving DecidableEq, Repr

/-- `Issuance` interface from `src/types.ts` (amounts in the prototype
are whole dollars). -/
structure Issuance where
  id : String
  batchId : Option String := none
  flightId : String
  pnr : String
  passengerName : String
  seat : Option String := none
  voucherType : VoucherType
  amount : Nat
  currency : String := "AUD"
  method : String
  externalId : Option String := none
  status : IssuanceStatus
  issuerId : String
  issuerName : String
  timestamp : String
  notes : Option String := none
  photoUrl : Option String := none
  overrideReason : Option String := none
deriving DecidableEq, Repr

/-- The `Partial<Issuance>` rows the wizard posts to `/api/issuances`:
everything except `id`, `status`, `timestamp`, which the mock handler
fills in (`handleSubmit` in `src/routes/IssueWizard.tsx`). -/
structure IssuanceInput where
  batchId : Option String := none
  flightId : String
  pnr : String
  passengerName : String
  seat : Option String := none
  voucherType : VoucherType
  amount : Nat
  currency : String := "AUD"
  method : String
  externalId : Option String := none
  issuerId : String
  issuerName : String
  notes : Option String := none
  photoUrl : Option String := none
  overrideReason : Option String := none
deriving DecidableEq, Repr

/-- `Preset` interface from `src/types.ts`. -/
structure Preset where
  voucherType : VoucherType
  disruptionCategory : Option DisruptionCategory
  defaultAmount : Nat
deriving DecidableEq, Repr

/-- The signed-in `User` from `src/store/auth.ts`. -/
structure User where
  name : String
  role : Role
deriving DecidableEq, Repr

/-! ## Mock backend (`src/mocks/handlers.ts`)

The in-memory `issuances` array is threaded explicitly; `uuid()` draws
are passed in as an id supply; `new Date().toISOString()` as a
timestamp parameter; `Math.random() < 0.1` as a boolean. -/

/-- `GET /api/issuances` handler: optionally filter by `flightId`,
otherwise return the list as stored. -/
def getIssuances (issuances : List Issuance) (flightId : Option String) :
    List Issuance :=
  match flightId with
  | some fid => issuances.filter (fun i => i.flightId == fid)
  | none => issuances

/-- The body of `POST /api/issuances` is either a single record or an
array of records (`Array.isArray(body) ? body : [body]`). -/
inductive PostBody
  | single (r : IssuanceInput)
  | array (rs : List IssuanceInput)
deriving DecidableEq, Repr

/-- `records` normalisation in the `POST /api/issuances` handler. -/
def postRecords : PostBody → List IssuanceInput
  | .single r => [r]
  | .array rs => rs

/-- One created record: `{ ...rec, id: uuid(), status: 'issued',
timestamp: new Date().toISOString() }`. -/
def mkIssuance (rec : IssuanceInput) (newId ts : String) : Issuance :=
  { id := newId
    batchId := rec.batchId
    flightId := rec.flightId
    pnr := rec.pnr
    passengerName := rec.passengerName
    seat := rec.seat
    voucherType := rec.voucherType
    amount := rec.amount
    currency := rec.currency
    method := rec.method
    externalId := rec.externalId
    status := .issued
    issuerId := rec.issuerId
    issuerName := rec.issuerName
    timestamp := ts
    notes := rec.notes
    photoUrl := rec.photoUrl
    overrideReason := rec.overrideReason }

/-- `records.map(...)` in the `POST /api/issuances` handler, with the
`k`-th record receiving the `(start+k)`-th id drawn from the supply. -/
def createdFrom (records : List IssuanceInput) (ids : Nat → String)
    (start : Nat) (ts : String) : List Issuance :=
  match records with
  | [] => []
  | rec :: rest => mkIssuance rec (ids start) ts :: createdFrom rest ids (start + 1) ts

/-- `POST /api/issuances` handler: create records, prepend them to the
in-memory list, respond with the created records and HTTP 201.
Returns (new state, response body, HTTP status). -/
def postIssuances (issuances : List Issuance) (body : PostBody)
    (ids : Nat → String) (ts : String) :
    List Issuance × List Issuance × Nat :=
  let records := postRecords body
  let created := createdFrom records ids 0 ts
  (created ++ issuances, created, 201)

/-- The mutation `issuance.status = 'void'; if (body.overrideReason)
issuance.overrideReason = body.overrideReason` applied to the found
issuance (a JS empty string is falsy, so it does not overwrite). -/
def voidFlip (i : Issuance) (reason : Option String) : Issuance :=
  { i with
    status := .void
    overrideReason :=
      match reason with
      | some s => if s.isEmpty then i.overrideReason else some s
      | none => i.overrideReason }

/-- `issuances.find((i) => i.id === id)` mutates the first matching
object in place; on the list model that updates the first match only. -/
def voidUpdate (issuances : List Issuance) (id : String)
    (reason : Option String) : List Issuance :=
  match issuances with
  | [] => []
  | i :: rest =>
      if i.id == id then voidFlip i reason :: rest
      else i :: voidUpdate rest id reason

/-- `POST /api/issuances/void/:id` handler: 404 when no issuance has
the id, otherwise flip the first match to `void`. Returns
(new state, response: voided issuance or HTTP error status). -/
def voidIssuance (issuances : List Issuance) (id : String)
    (reason : Option String) : List Issuance × Except Nat Issuance :=
  match issuances.find? (fun i => i.id == id) with
  | none => (issuances, .error 404)
  | some i => (voidUpdate issuances id reason, .ok (voidFlip i reason))

/-- `POST /api/uber/issue` failure rule: `body.amount > 80 ||
Math.random() < 0.1` responds 502, otherwise 200 with a voucher. -/
def uberIssueStatus (amount : Nat) (randomFail : Bool) : Nat :=
  if amount > 80 || randomFail then 502 else 200

/-! ## HTTP status surface of every handler -/

/-- One request to any of the 11 routes in `src/mocks/handlers.ts`. -/
inductive ApiRequest
  | health
  | flightsGet (date : Option String)
  | flightById (id : String)
  | flightPassengers (id : String)
  | presetsGet
  | issuancesGet (flightId : Option String)
  | issuancesPost (body : PostBody)
  | issuanceVoid (id : String) (overrideReason : Option String)
  | uberIssue (amount : Nat)
  | fifteenBelowSend
  | exportsGet (flightId : Option String)
deriving Repr

/-- The HTTP status each handler in `src/mocks/handlers.ts` responds
with, as a function of the request, the in-memory issuance list, the
static flight fixtures, and the `Math.random() < 0.1` draw of the Uber
mock. -/
def handleStatus (issuances : List Issuance) (flights : List Flight)
    (req : ApiRequest) (randomFail : Bool) : Nat :=
  match req with
  | .health => 200
  | .flightsGet _ => 200
  | .flightById id =>
      match flights.find? (fun f => f.id == id) with
      | none => 404
      | some _ => 200
  | .flightPassengers _ => 200
  | .presetsGet => 200
  | .issuancesGet _ => 200
  | .issuancesPost _ => 201
  | .issuanceVoid id _ =>
      match issuances.find? (fun i => i.id == id) with
      | none => 404
      | some _ => 200
  | .uberIssue amount => uberIssueStatus amount randomFail
  | .fifteenBelowSend => 200
  | .exportsGet _ => 200

/-! ## CSV export (`GET /api/exports` in `src/mocks/handlers.ts`) -/

/-- `Array.prototype.join(sep)` on a list of strings. -/
def joinSep (sep : String) : List String → String
  | [] => ""
  | [a] => a
  | a :: b :: rest => a ++ sep ++ joinSep sep (b :: rest)

/-- Render a `VoucherType` the way the TS string union prints. -/
def vtString : VoucherType → String
  | .MEAL => "MEAL"
  | .UBER => "UBER"
  | .CABCHARGE => "CABCHARGE"

/-- Render an `IssuanceStatus` the way the TS string union prints. -/
def statusString : IssuanceStatus → String
  | .issued => "issued"
  | .redeemed => "redeemed"
  | .expired => "expired"
  | .void => "void"

/-- The fixed header line of the export. -/
def csvHeader : String :=
  "issuance_id,flight,date,pnr,passenger_name,seat,voucher_type,amount,method,external_id,issuer,timestamp,notes,status"

/-- The 14 field values of one row, in handler order, with the
`|| ''` defaults for absent optionals and the flight lookup against
the static flight fixtures. -/
def csvFields (flights : List Flight) (i : Issuance) : List String :=
  let flight := flights.find? (fun f => f.id == i.flightId)
  let flightNumber := (flight.map (fun f => f.flightNumber)).getD ""
  let date := (flight.map (fun f => f.date)).getD ""
  [ i.id
  , flightNumber
  , date
  , i.pnr
  , i.passengerName
  , i.seat.getD ""
  , vtString i.voucherType
  , toString i.amount
  , i.method
  , i.externalId.getD ""
  , i.issuerName
  , i.timestamp
  , i.notes.getD ""
  , statusString i.status ]

/-- One CSV row: `[...fields].join(',')`. -/
def csvRow (flights : List Flight) (i : Issuance) : String :=
  joinSep "," (csvFields flights i)

/-- The `GET /api/exports` handler body: filter by `flightId` when
given, then `[header, ...rows].join('\n')`. -/
def exportCsv (issuances : List Issuance) (flights : List Flight)
    (flightId : Option String) : String :=
  let data : List Issuance :=
    match flightId with
    | some fid => issuances.filter (fun i => i.flightId == fid)
    | none => issuances
  let rows := data.map (csvRow flights)
  joinSep "\n" (csvHeader :: rows)

/-- Spec-side rendering of one row, following the spec's words: the
field values comma-joined by plain concatenation, absent optional
fields rendered as empty strings, no quoting or escaping. -/
def exportCsvSpecRow (flights : List Flight) (i : Issuance) : String :=
  let flight := flights.find? (fun f => f.id == i.flightId)
  i.id ++ ","
    ++ (flight.map (fun f => f.flightNumber)).getD "" ++ ","
    ++ (flight.map (fun f => f.date)).getD "" ++ ","
    ++ i.pnr ++ ","
    ++ i.passengerName ++ ","
    ++ i.seat.getD "" ++ ","
    ++ vtString i.voucherType ++ ","
    ++ toString i.amount ++ ","
    ++ i.method ++ ","
    ++ i.externalId.getD "" ++ ","
    ++ i.issuerName ++ ","
    ++ i.timestamp ++ ","
    ++ i.notes.getD "" ++ ","
    ++ statusString i.status

/-- Spec-side rendering of the export, following the spec's words:
the fixed 14-column header line followed by one row per matching
issuance in list order, rows joined by newline characters. -/
def exportCsvSpec (issuances : List Issuance) (flights : List Flight)
    (flightId : Option String) : String :=
  let matching : List Issuance :=
    match flightId with
    | some fid => issuances.filter (fun i => i.flightId == fid)
    | none => issuances
  matching.foldl
    (fun (acc : String) (i : Issuance) => acc ++ "\n" ++ exportCsvSpecRow flights i)
    csvHeader

/-! ## Issue wizard (`src/routes/IssueWizard.tsx`)

`crypto.randomUUID()` for pending-voucher ids is modelled by a `Nat`
counter in the wizard state; the voucher id only serves as a key. -/

/-- The `PendingVoucher` interface of `src/routes/IssueWizard.tsx`
(fields that never flow into submitted rows or duplicate detection,
such as the Uber vehicle pickers and the meal tier, are carried as
plain data). -/
structure PendingVoucher where
  id : Nat
  type : VoucherType
  passengerId : String
  amount : Nat
  reason : String := ""
  sendComms : Option Bool := none
  mode : Option String := none
  startSerial : Option String := none
  serialNumber : Option String := none
  photoDataUrl : Option String := none
  mealTier : Option String := none
deriving DecidableEq, Repr

/-- The fallback amounts `type === 'UBER' ? 50 : type === 'MEAL' ? 30 : 50`. -/
def fallbackAmount : VoucherType → Nat
  | .UBER => 50
  | .MEAL => 30
  | .CABCHARGE => 50

/-- `getDefaultAmount` in `src/routes/IssueWizard.tsx`: preset lookup by
voucher type and the flight's disruption category, with the
JS-truthiness fallback `preset?.defaultAmount || (...)` (a preset
amount of 0 is falsy and falls through). -/
def getDefaultAmount (presets : List Preset)
    (category : Option DisruptionCategory) (t : VoucherType) : Nat :=
  match category with
  | none => fallbackAmount t
  | some c =>
      match presets.find?
        (fun p => p.voucherType == t && p.disruptionCategory == some c) with
      | some p => if p.defaultAmount == 0 then fallbackAmount t else p.defaultAmount
      | none => fallbackAmount t

/-- The fresh voucher built for one passenger inside `addVoucher`. -/
def mkPendingVoucher (presets : List Preset)
    (category : Option DisruptionCategory) (t : VoucherType)
    (pax : Passenger) (freshId : Nat) : PendingVoucher :=
  { id := freshId
    type := t
    passengerId := pax.id
    amount := getDefaultAmount presets category t
    reason := ""
    sendComms := if t == .UBER then some true else none
    mode := if t != .UBER then some "quick" else none
    startSerial :=
      if t == .MEAL then some "M1000"
      else if t == .CABCHARGE then some "C2000" else none
    serialNumber := none
    photoDataUrl := none
    mealTier := if t == .MEAL then some "Lunch" else none }

/-- `selectedPassengers.map(...)` inside `addVoucher`, with successive
fresh ids starting at `freshId`. -/
def newVouchersFor (presets : List Preset)
    (category : Option DisruptionCategory) (t : VoucherType)
    (selected : List Passenger) (freshId : Nat) : List PendingVoucher :=
  match selected with
  | [] => []
  | pax :: rest =>
      mkPendingVoucher presets category t pax freshId
        :: newVouchersFor presets category t rest (freshId + 1)

/-- Wizard pending-voucher state: the `pendingVouchers` list plus the
fresh-id counter standing in for `crypto.randomUUID()`. -/
structure WizardState where
  pendingVouchers : List PendingVoucher
  nextId : Nat
deriving Repr

/-- `addVoucher(type)`: create one voucher per selected passenger and
append them (`setPendingVouchers([...pendingVouchers, ...newVouchers])`). -/
def addVoucher (presets : List Preset)
    (category : Option DisruptionCategory) (selected : List Passenger)
    (st : WizardState) (t : VoucherType) : WizardState :=
  let newVouchers := newVouchersFor presets category t selected st.nextId
  { pendingVouchers := st.pendingVouchers ++ newVouchers
    nextId := st.nextId + selected.length }

/-- Folding a sequence of `addVoucher` clicks over the voucher-type
choices, starting from an empty batch. -/
def addVouchers (presets : List Preset)
    (category : Option DisruptionCategory) (selected : List Passenger)
    (types : List VoucherType) : WizardState :=
  types.foldl (addVoucher presets category selected)
    { pendingVouchers := [], nextId := 0 }

/-- `getDuplicates` in `src/routes/IssueWizard.tsx`: for each selected
passenger, for each pending voucher, `find` an existing issuance with
the same PNR, the current flight's id, the same voucher type and a
status other than `'void'`; push the (passenger, voucher type) pair
when found. -/
def getDuplicates (selected : List Passenger)
    (pending : List PendingVoucher) (existing : List Issuance)
    (flightId : String) : List (Passenger × VoucherType) :=
  (selected.map (fun pax =>
    pending.filterMap (fun voucher =>
      match existing.find? (fun iss =>
        iss.pnr == pax.pnr
          && iss.flightId == flightId
          && iss.voucherType == voucher.type
          && iss.status != IssuanceStatus.void) with
      | some _ => some (pax, voucher.type)
      | none => none))).flatten

/-- Modelled from the spec: `CONFIG.SHOW_DUPLICATE_GUARD` comes from
`src/config.ts`, which is not present under `src/`; per the feature-flag
table in `TECHNICAL_DOCUMENTATION.md` its value is `true`. -/
def SHOW_DUPLICATE_GUARD : Bool := true

/-- `canOverride = user?.role === 'SUPERVISOR' || user?.role === 'ADMIN'`. -/
def canOverride (user : Option User) : Bool :=
  match user with
  | some u => u.role == .SUPERVISOR || u.role == .ADMIN
  | none => false

/-- `isBlocked = CONFIG.SHOW_DUPLICATE_GUARD && hasDuplicates && !canOverride`. -/
def isBlocked (user : Option User) (hasDuplicates : Bool) : Bool :=
  SHOW_DUPLICATE_GUARD && hasDuplicates && !canOverride user

/-- `needsOverrideReason = CONFIG.SHOW_DUPLICATE_GUARD && hasDuplicates
&& canOverride && !overrideReason.trim()` (an all-blank reason trims to
the empty string, which is falsy). -/
def needsOverrideReason (user : Option User) (hasDuplicates : Bool)
    (overrideReason : String) : Bool :=
  SHOW_DUPLICATE_GUARD && hasDuplicates && canOverride user
    && overrideReason.trim == ""

/-- The early-return guard of `handleSubmit`:
`if (isBlocked || needsOverrideReason) return`. -/
def submitAllowed (user : Option User) (hasDuplicates : Bool)
    (overrideReason : String) : Bool :=
  !(isBlocked user hasDuplicates || needsOverrideReason user hasDuplicates overrideReason)

/-- The `notes` string assembled in `handleSubmit`: serial, then the
per-passenger note, then the reason, comma-separated when more than
one part is present (JS truthiness: empty serial/reason contribute
nothing, notes are trimmed and skipped when all-blank). -/
def buildNotes (serialNumber : Option String) (paxNote : Option String)
    (reason : String) : String :=
  let notes :=
    match serialNumber with
    | some sn => if sn.isEmpty then "" else "serial:" ++ sn
    | none => ""
  let notes :=
    match paxNote with
    | some n =>
        if n.trim.isEmpty then notes
        else if notes.isEmpty then "note: " ++ n.trim
        else notes ++ ", note: " ++ n.trim
    | none => notes
  if reason.isEmpty then notes
  else if notes.isEmpty then "reason: " ++ reason
  else notes ++ ", reason: " ++ reason

/-- `method` selection in the submitted row. -/
def methodFor : VoucherType → String
  | .UBER => "uber_digital"
  | .MEAL => "meal_paper"
  | .CABCHARGE => "cabcharge_paper"

/-- One row pushed by `handleSubmit` for a pending voucher and its
found passenger. `uberResult` is the (mocked, possibly failed) Uber
call keyed by the voucher id; on failure `externalId` stays absent. -/
def mkRow (batchId flightId : String) (user : Option User)
    (duplicates : List (Passenger × VoucherType)) (overrideReason : String)
    (notesMap : Nat → String → Option String)
    (uberResult : Nat → Option String)
    (voucher : PendingVoucher) (pax : Passenger) : IssuanceInput :=
  let isDuplicate := duplicates.any
    (fun d => d.1.id == pax.id && d.2 == voucher.type)
  { batchId := some batchId
    flightId := flightId
    pnr := pax.pnr
    passengerName := pax.name
    seat := some pax.seat
    voucherType := voucher.type
    amount := voucher.amount
    currency := "AUD"
    method := methodFor voucher.type
    externalId := if voucher.type == .UBER then uberResult voucher.id else none
    issuerId := ((user.map (fun u => u.name)).getD "unknown")
    issuerName := ((user.map (fun u => u.name)).getD "Unknown User")
    notes := some (buildNotes voucher.serialNumber
      (notesMap voucher.id pax.id) voucher.reason)
    photoUrl := voucher.photoDataUrl
    overrideReason :=
      if isDuplicate && canOverride user then some overrideReason else none }

/-- The `for (const voucher of pendingVouchers)` loop of `handleSubmit`:
find the voucher's passenger among the selected ones, skip when absent
(`if (!pax) continue`), otherwise push one row. -/
def buildRows (batchId flightId : String) (user : Option User)
    (selected : List Passenger) (pending : List PendingVoucher)
    (duplicates : List (Passenger × VoucherType)) (overrideReason : String)
    (notesMap : Nat → String → Option String)
    (uberResult : Nat → Option String) : List IssuanceInput :=
  pending.filterMap (fun voucher =>
    match selected.find? (fun p => p.id == voucher.passengerId) with
    | none => none
    | some pax => some (mkRow batchId flightId user duplicates overrideReason
        notesMap uberResult voucher pax))

/-! ## Offline queue (`src/store/useOfflineQueue.ts`, `src/routes/Offline.tsx`) -/

/-- The status tag union of `IssuanceIntent` in
`src/store/useOfflineQueue.ts`. -/
inductive IntentStatus
  | queued
  | posting
  | synced
  | failed
deriving DecidableEq, Repr

/-- The optional per-passenger display data in an intent payload. -/
structure IntentPax where
  pnr : String
  name : String
  seat : Option String := none
deriving DecidableEq, Repr

/-- One deferred voucher inside an intent payload. -/
structure IntentVoucher where
  type : VoucherType
  amount : Nat
  sendComms : Option Bool := none
  mode : Option String := none
  startSerial : Option String := none
  manualSerials : Option (List String) := none
  photoDataUrl : Option String := none
deriving DecidableEq, Repr

/-- The `payload` of an `IssuanceIntent`. -/
structure IntentPayload where
  flightId : String
  recipientPaxIds : List String
  passengers : Option (List IntentPax) := none
  vouchers : List IntentVoucher
deriving DecidableEq, Repr

/-- `IssuanceIntent` from `src/store/useOfflineQueue.ts`. -/
structure IssuanceIntent where
  id : String
  createdAt : String
  status : IntentStatus
  error : Option String := none
  payload : IntentPayload
deriving DecidableEq, Repr

/-- `enqueue` in the store: build a new intent with a fresh id, the
current timestamp and status `'queued'`, and append it
(`intents: [...state.intents, newIntent]`). -/
def enqueue (intents : List IssuanceIntent) (payload : IntentPayload)
    (newId ts : String) : List IssuanceIntent :=
  intents ++
    [{ id := newId, createdAt := ts, status := .queued, error := none
       payload := payload }]

/-- `updateStatus` in the store: map over the intents, replacing the
status and error of every intent whose id matches. -/
def updateStatus (intents : List IssuanceIntent) (id : String)
    (status : IntentStatus) (error : Option String) : List IssuanceIntent :=
  intents.map (fun intent =>
    if intent.id == id then { intent with status := status, error := error }
    else intent)

/-- `remove` in the store: filter the intent out by id. -/
def removeIntent (intents : List IssuanceIntent) (id : String) :
    List IssuanceIntent :=
  intents.filter (fun intent => intent.id != id)

/-- `clear` in the store: drop every intent. -/
def clearIntents : List IssuanceIntent := []

/-- `retryIntent` in `src/routes/Offline.tsx`: set the intent to
`'posting'`, rebuild rows, POST them; on a non-ok response or a network
error the `catch` marks the intent `'failed'` with the error message
(`err.message || 'Network error'`), on success `'synced'`.  The POST
outcome stands in for the awaited fetch: `.ok` for an ok response,
`.error msg` for a thrown error.  The `Except` in the result type is
the async function's rejection channel: an uncaught throw would surface
as `.error`. -/
def retryIntent (intents : List IssuanceIntent) (intent : IssuanceIntent)
    (outcome : Except String Unit) :
    Except String (List IssuanceIntent) :=
  let posting := updateStatus intents intent.id .posting none
  match outcome with
  | .ok _ => .ok (updateStatus posting intent.id .synced none)
  | .error msg =>
      .ok (updateStatus posting intent.id .failed
        (some (if msg.isEmpty then "Network error" else msg)))

/-- The selection `intents.filter((i) => i.status === 'queued' ||
i.status === 'failed')` taken at the start of `syncAll`. -/
def toSync (intents : List IssuanceIntent) : List IssuanceIntent :=
  intents.filter (fun i => i.status == .queued || i.status == .failed)

/-- The body of `syncAll`'s sequential `for` loop: `try { await
retryIntent(intent); succeeded++ } catch { failed++ }`, threading the
store state and the two counters. -/
def syncStep (post : String → Except String Unit)
    (acc : List IssuanceIntent × Nat × Nat) (intent : IssuanceIntent) :
    List IssuanceIntent × Nat × Nat :=
  match retryIntent acc.1 intent (post intent.id) with
  | .ok st => (st, acc.2.1 + 1, acc.2.2)
  | .error _ => (acc.1, acc.2.1, acc.2.2 + 1)

/-- `syncAll` in `src/routes/Offline.tsx`: take the queued/failed
intents as of the start, then replay them one at a time in queue order,
each `await`ed before the next.  `post` gives each intent's POST
outcome.  Returns (final intents, succeeded, failed). -/
def syncAll (intents : List IssuanceIntent)
    (post : String → Except String Unit) :
    List IssuanceIntent × Nat × Nat :=
  (toSync intents).foldl (syncStep post) (intents, 0, 0)

/-- The completion toast text of `syncAll`. -/
def syncToast (succeeded failed : Nat) : String :=
  "Sync completed: " ++ toString succeeded ++ " succeeded, "
    ++ toString failed ++ " failed."

/-! ## Theorems -/

/-- C4 (counterexample): the mocked Uber issue endpoint, given an
amount exceeding 80 (here 100, with the 10% random draw not firing),
responds with HTTP 502, not 503 as claimed. -/
theorem c4_uber_mock_fails_with_502_not_503 :
    uberIssueStatus 100 false = 502 ∧ uberIssueStatus 100 false ≠ 503 := by
  decide

/-- C4 (amended): the only simulated network failure in the mock
backend is an HTTP 502 response: every handler responds 200, 201, 404
or 502; a 502 arises only from the Uber issue endpoint when the amount
exceeds 80 or the 10% random draw fires, and it always arises when the
amount exceeds 80; the only other non-2xx responses are the 404
not-found ones of the flight-by-id and void handlers. -/
theorem mock_backend_only_failures_502_and_404
    (issuances : List Issuance) (flights : List Flight)
    (req : ApiRequest) (randomFail : Bool) :
    (handleStatus issuances flights req randomFail = 200 ∨
      handleStatus issuances flights req randomFail = 201 ∨
      handleStatus issuances flights req randomFail = 404 ∨
      handleStatus issuances flights req randomFail = 502) ∧
    (handleStatus issuances flights req randomFail = 502 →
      ∃ amount, req = .uberIssue amount ∧ (80 < amount ∨ randomFail = true)) ∧
    (∀ amount, 80 < amount →
      handleStatus issuances flights (.uberIssue amount) randomFail = 502) ∧
    (handleStatus issuances flights req randomFail = 404 →
      (∃ id, req = .flightById id) ∨ ∃ id r, req = .issuanceVoid id r) := by
  refine ⟨?_, ?_, ?_, ?_⟩
  · cases req with
    | flightById id =>
        cases h : flights.find? (fun f => f.id == id) <;>
          simp [handleStatus, h]
    | issuanceVoid id r =>
        cases h : issuances.find? (fun i => i.id == id) <;>
          simp [handleStatus, h]
    | uberIssue amount =>
        by_cases h : (80 < amount) <;>
          cases randomFail <;> simp [handleStatus, uberIssueStatus, h]
    | _ => simp [handleStatus]
  · intro h
    cases req with
    | flightById id =>
        cases hf : flights.find? (fun f => f.id == id) <;>
          simp [handleStatus, hf] at h
    | issuanceVoid id r =>
        cases hf : issuances.find? (fun i => i.id == id) <;>
          simp [handleStatus, hf] at h
    | uberIssue amount =>
        refine ⟨amount, rfl, ?_⟩
        by_cases ha : (80 < amount)
        · exact Or.inl ha
        · cases randomFail with
          | true => exact Or.inr rfl
          | false => simp [handleStatus, uberIssueStatus, ha] at h
    | _ => simp [handleStatus] at h
  · intro amount ha
    simp [handleStatus, uberIssueStatus, ha]
  · intro h
    cases req with
    | flightById id => exact Or.inl ⟨id, rfl⟩
    | issuanceVoid id r => exact Or.inr ⟨id, r, rfl⟩
    | flightsGet d => simp [handleStatus] at h
    | issuancesGet fid => simp [handleStatus] at h
    | issuancesPost b => simp [handleStatus] at h
    | uberIssue amount =>
        by_cases ha : (80 < amount) <;>
          cases randomFail <;> simp [handleStatus, uberIssueStatus, ha] at h
    | exportsGet fid => simp [handleStatus] at h
    | health => simp [handleStatus] at h
    | flightPassengers id => simp [handleStatus] at h
    | presetsGet => simp [handleStatus] at h
    | fifteenBelowSend => simp [handleStatus] at h

/-- C4 (amended, witness): instantiating the implications of the
amended theorem at a concrete 502 and a concrete amount. -/
theorem mock_backend_only_failures_502_and_404_witness :
    (∃ amount, ApiRequest.uberIssue 90 = ApiRequest.uberIssue amount ∧
      (80 < amount ∨ false = true)) ∧
    handleStatus [] [] (.uberIssue 100) false = 502 :=
  ⟨(mock_backend_only_failures_502_and_404 [] [] (.uberIssue 90) false).2.1
      (by decide),
    (mock_backend_only_failures_502_and_404 [] [] (.uberIssue 100) false).2.2.1
      100 (by decide)⟩

/-! ### CSV export -/

theorem foldl_sep_append (sep : String) :
    ∀ (t : List String) (p q : String),
    p ++ t.foldl (fun acc x => acc ++ sep ++ x) q
      = t.foldl (fun acc x => acc ++ sep ++ x) (p ++ q) := by
  intro t
  induction t with
  | nil => intro p q; rfl
  | cons b u ih =>
      intro p q
      simp only [List.foldl_cons]
      rw [ih]
      congr 1
      simp [String.append_assoc]

theorem joinSep_cons_foldl (sep a : String) (l : List String) :
    joinSep sep (a :: l) = l.foldl (fun acc x => acc ++ sep ++ x) a := by
  induction l generalizing a with
  | nil => rfl
  | cons b u ih =>
      show a ++ sep ++ joinSep sep (b :: u) = _
      rw [ih]
      simp only [List.foldl_cons]
      rw [foldl_sep_append]

set_option maxHeartbeats 1000000 in
theorem csvRow_eq_specRow (flights : List Flight) (i : Issuance) :
    csvRow flights i = exportCsvSpecRow flights i := by
  simp [csvRow, csvFields, exportCsvSpecRow, joinSep, String.append_assoc]

/-- C5: CSV export is plain string-joining: for every state of the
in-memory issuances list and optional flightId parameter, the handler
output equals the fixed 14-column header line followed by one
comma-joined row per matching issuance in list order (absent optional
fields rendered as empty strings), rows joined by newline characters,
with no quoting or escaping of field contents. -/
theorem csv_export_is_plain_string_joining
    (issuances : List Issuance) (flights : List Flight)
    (fid : Option String) :
    exportCsv issuances flights fid = exportCsvSpec issuances flights fid := by
  simp only [exportCsv, exportCsvSpec]
  cases fid with
  | none =>
      rw [joinSep_cons_foldl, List.foldl_map]
      simp only [csvRow_eq_specRow]
  | some f =>
      rw [joinSep_cons_foldl, List.foldl_map]
      simp only [csvRow_eq_specRow]

/-- C8: in the issue wizard, overriding a detected duplicate is
permitted exactly when the signed-in user's role is `SUPERVISOR` or
`ADMIN`; when duplicates exist, submission is blocked exactly when the
role is neither, and when the role is one of them submission goes
through exactly when the override reason is non-blank. -/
theorem role_check_is_string_compare (u : User) (hasDup : Bool)
    (reason : String) :
    (canOverride (some u) = true ↔ (u.role = .SUPERVISOR ∨ u.role = .ADMIN)) ∧
    (hasDup = true →
      (isBlocked (some u) hasDup = true ↔
        (u.role ≠ .SUPERVISOR ∧ u.role ≠ .ADMIN))) ∧
    (hasDup = true → (u.role = .SUPERVISOR ∨ u.role = .ADMIN) →
      (submitAllowed (some u) hasDup reason = true ↔ reason.trim ≠ "")) ∧
    (hasDup = true → (u.role ≠ .SUPERVISOR ∧ u.role ≠ .ADMIN) →
      submitAllowed (some u) hasDup reason = false) := by
  obtain ⟨name, role⟩ := u
  cases role <;> cases hasDup <;>
    simp [canOverride, isBlocked, needsOverrideReason, submitAllowed,
      SHOW_DUPLICATE_GUARD]

/-- C8 (witness): a CSA is blocked on duplicates; a supervisor with a
non-blank override reason may submit. -/
theorem role_check_is_string_compare_witness :
    (isBlocked (some { name := "Demo User", role := Role.CSA }) true = true ↔
      (Role.CSA ≠ Role.SUPERVISOR ∧ Role.CSA ≠ Role.ADMIN)) ∧
    (submitAllowed (some { name := "Demo User", role := Role.SUPERVISOR })
        true "duplicate approved" = true ↔
      ("duplicate approved").trim ≠ "") :=
  ⟨(role_check_is_string_compare
      { name := "Demo User", role := Role.CSA } true "").2.1 rfl,
    (role_check_is_string_compare
      { name := "Demo User", role := Role.SUPERVISOR } true
      "duplicate approved").2.2.1 rfl (Or.inl rfl)⟩

/-! ### Offline queue -/

theorem updateStatus_comp (intents : List IssuanceIntent) (id : String)
    (s1 s2 : IntentStatus) (e1 e2 : Option String) :
    updateStatus (updateStatus intents id s1 e1) id s2 e2
      = updateStatus intents id s2 e2 := by
  simp only [updateStatus, List.map_map]
  refine List.map_congr_left ?_
  intro a _
  by_cases h : (a.id == id) = true
  · simp [Function.comp, h]
  · simp [Function.comp, h]

theorem updateStatus_mem_of_ne {intents : List IssuanceIntent}
    {it : IssuanceIntent} (h : it ∈ intents) {id : String}
    (hne : it.id ≠ id) (s : IntentStatus) (e : Option String) :
    it ∈ updateStatus intents id s e := by
  have : it = (fun intent =>
      if intent.id == id then { intent with status := s, error := e }
      else intent) it := by
    simp [hne]
  rw [updateStatus]
  exact this ▸ List.mem_map_of_mem _ h

/-- C10: `retryIntent` never rejects: every failure is handled inside
its `catch`, which marks the intent `failed`; consequently `syncAll`'s
`failed` counter is always 0 and its completion toast counts every
attempted intent as succeeded, even when the underlying POSTs failed
and the intents were marked `failed`. -/
theorem retryIntent_never_throws
    (intents : List IssuanceIntent) (intent : IssuanceIntent)
    (outcome : Except String Unit)
    (post : String → Except String Unit) :
    (∃ st, retryIntent intents intent outcome = .ok st) ∧
    (syncAll intents post).2.2 = 0 ∧
    (syncAll intents post).2.1 = (toSync intents).length ∧
    syncToast (syncAll intents post).2.1 (syncAll intents post).2.2
      = syncToast (toSync intents).length 0 := by
  have hcount : ∀ (L : List IssuanceIntent)
      (st : List IssuanceIntent) (s f : Nat),
      (L.foldl (syncStep post) (st, s, f)).2.1 = s + L.length ∧
      (L.foldl (syncStep post) (st, s, f)).2.2 = f := by
    intro L
    induction L with
    | nil => intro st s f; simp
    | cons x t ih =>
        intro st s f
        simp only [List.foldl_cons]
        have hstep : syncStep post (st, s, f) x
            = ((syncStep post (st, s, f) x).1, s + 1, f) := by
          cases h : post x.id <;> simp [syncStep, retryIntent, h]
        rw [hstep]
        have h2 := ih (syncStep post (st, s, f) x).1 (s + 1) f
        simp only [List.length_cons]
        exact ⟨by rw [h2.1]; omega, h2.2⟩
  refine ⟨?_, ?_, ?_, ?_⟩
  · cases outcome <;> exact ⟨_, rfl⟩
  · exact ((hcount (toSync intents) intents 0 0).2)
  · have := (hcount (toSync intents) intents 0 0).1
    simpa using this
  · have h1 := (hcount (toSync intents) intents 0 0).1
    have h2 := (hcount (toSync intents) intents 0 0).2
    rw [syncAll, h1, h2]
    simp

/-- C10 (witness): a single queued intent whose POST fails ends up
`failed`, yet the counters report 1 succeeded and 0 failed. -/
theorem retryIntent_never_throws_witness :
    (syncAll
      [{ id := "INT-1", createdAt := "2025-10-27T00:00:00Z",
         status := .queued, error := none,
         payload := { flightId := "QF401|2025-10-27|SYD-MEL",
                      recipientPaxIds := ["ABC123"], passengers := none,
                      vouchers := [{ type := .MEAL, amount := 30 }] } }]
      (fun _ => .error "HTTP 502")).2.2 = 0 ∧
    (syncAll
      [{ id := "INT-1", createdAt := "2025-10-27T00:00:00Z",
         status := .queued, error := none,
         payload := { flightId := "QF401|2025-10-27|SYD-MEL",
                      recipientPaxIds := ["ABC123"], passengers := none,
                      vouchers := [{ type := .MEAL, amount := 30 }] } }]
      (fun _ => .error "HTTP 502")).1.map (fun i => i.status) = [.failed] :=
  ⟨(retryIntent_never_throws
      [{ id := "INT-1", createdAt := "2025-10-27T00:00:00Z",
         status := .queued, error := none,
         payload := { flightId := "QF401|2025-10-27|SYD-MEL",
                      recipientPaxIds := ["ABC123"], passengers := none,
                      vouchers := [{ type := .MEAL, amount := 30 }] } }]
      { id := "INT-1", createdAt := "2025-10-27T00:00:00Z",
        status := .queued, error := none,
        payload := { flightId := "QF401|2025-10-27|SYD-MEL",
                     recipientPaxIds := ["ABC123"], passengers := none,
                     vouchers := [{ type := .MEAL, amount := 30 }] } }
      (.ok ()) (fun _ => .error "HTTP 502")).2.1, by decide⟩

/-- C3: every offline-queue intent carries one of the four status tags
`queued`/`posting`/`synced`/`failed`; `enqueue` always appends a new
intent with status `queued` leaving the existing ones untouched;
`updateStatus` is the only status-changing operation (`remove` and
`clear` only drop intents unchanged); a retry sets the intent to
`posting` and then to `synced` on success or to `failed` with an error
message on failure. -/
theorem offline_queue_status_lifecycle
    (intents : List IssuanceIntent) (payload : IntentPayload)
    (newId ts id : String) (st : IntentStatus) (err : Option String)
    (intent : IssuanceIntent) (msg : String) :
    (∀ s : IntentStatus,
      s = .queued ∨ s = .posting ∨ s = .synced ∨ s = .failed) ∧
    (enqueue intents payload newId ts
      = intents ++
        [{ id := newId, createdAt := ts, status := .queued, error := none
           payload := payload }]) ∧
    (∀ it ∈ updateStatus intents id st err,
      (it ∈ intents ∧ it.id ≠ id) ∨
      (∃ it0 ∈ intents, it0.id = id ∧
        it = { it0 with status := st, error := err })) ∧
    (∀ it ∈ removeIntent intents id, it ∈ intents) ∧
    (clearIntents = ([] : List IssuanceIntent)) ∧
    (retryIntent intents intent (.ok ())
      = .ok (updateStatus (updateStatus intents intent.id .posting none)
          intent.id .synced none)) ∧
    (retryIntent intents intent (.ok ())
      = .ok (updateStatus intents intent.id .synced none)) ∧
    (retryIntent intents intent (.error msg)
      = .ok (updateStatus intents intent.id .failed
          (some (if msg.isEmpty then "Network error" else msg)))) := by
  refine ⟨?_, rfl, ?_, ?_, rfl, rfl, ?_, ?_⟩
  · intro s; cases s <;> simp
  · intro it hit
    simp only [updateStatus, List.mem_map] at hit
    obtain ⟨it0, hit0, heq⟩ := hit
    by_cases h : (it0.id == id) = true
    · right
      exact ⟨it0, hit0, by simpa using h, by simp [h] at heq; exact heq.symm⟩
    · left
      simp only [h, if_neg, Bool.false_eq_true, if_false] at heq
      subst heq
      exact ⟨hit0, by simpa using h⟩
  · intro it hit
    exact List.mem_of_mem_filter hit
  · simp [retryIntent, updateStatus_comp]
  · simp [retryIntent, updateStatus_comp]

/-- C3 (witness): instantiating the quantified parts on a one-intent
queue: the enqueued intent is `queued`, and a failed retry leaves it
`failed` with the error message. -/
theorem offline_queue_status_lifecycle_witness :
    ((enqueue []
        { flightId := "QF401|2025-10-27|SYD-MEL",
          recipientPaxIds := ["ABC123"], passengers := none,
          vouchers := [{ type := .MEAL, amount := 30 }] }
        "INT-1" "2025-10-27T00:00:00Z").map (fun i => i.status)
      = [.queued]) ∧
    (retryIntent
        [{ id := "INT-1", createdAt := "2025-10-27T00:00:00Z",
           status := .queued, error := none,
           payload := { flightId := "QF401|2025-10-27|SYD-MEL",
                        recipientPaxIds := ["ABC123"], passengers := none,
                        vouchers := [{ type := .MEAL, amount := 30 }] } }]
        { id := "INT-1", createdAt := "2025-10-27T00:00:00Z",
          status := .queued, error := none,
          payload := { flightId := "QF401|2025-10-27|SYD-MEL",
                       recipientPaxIds := ["ABC123"], passengers := none,
                       vouchers := [{ type := .MEAL, amount := 30 }] } }
        (.error "HTTP 502")).map (fun l => l.map (fun i => i.status))
      = .ok [.failed] := by
  constructor
  · rw [(offline_queue_status_lifecycle []
      { flightId := "QF401|2025-10-27|SYD-MEL",
        recipientPaxIds := ["ABC123"], passengers := none,
        vouchers := [{ type := .MEAL, amount := 30 }] }
      "INT-1" "2025-10-27T00:00:00Z" "INT-1" .queued none
      { id := "INT-1", createdAt := "2025-10-27T00:00:00Z",
        status := .queued, error := none,
        payload := { flightId := "QF401|2025-10-27|SYD-MEL",
                     recipientPaxIds := ["ABC123"], passengers := none,
                     vouchers := [{ type := .MEAL, amount := 30 }] } }
      "HTTP 502").2.1]
    decide
  · rfl

theorem retry_state_mem {st : List IssuanceIntent} {it : IssuanceIntent}
    (h : it ∈ st) {x : IssuanceIntent} (hne : it.id ≠ x.id)
    (o : Except String Unit) :
    it ∈ (match retryIntent st x o with
          | .ok st' => st'
          | .error _ => st) := by
  cases o with
  | ok u =>
      simp only [retryIntent]
      exact updateStatus_mem_of_ne
        (updateStatus_mem_of_ne h hne .posting none) hne .synced none
  | error msg =>
      simp only [retryIntent]
      exact updateStatus_mem_of_ne
        (updateStatus_mem_of_ne h hne .posting none) hne .failed _

theorem sync_fold_preserves (post : String → Except String Unit) :
    ∀ (L : List IssuanceIntent) (st : List IssuanceIntent)
      (it : IssuanceIntent), it ∈ st → (∀ j ∈ L, j.id ≠ it.id) →
      it ∈ L.foldl (fun st intent =>
          match retryIntent st intent (post intent.id) with
          | .ok st' => st'
          | .error _ => st) st := by
  intro L
  induction L with
  | nil => intro st it h _; exact h
  | cons x t ih =>
      intro st it h hids
      simp only [List.foldl_cons]
      refine ih _ it ?_ (fun j hj => hids j (List.mem_cons_of_mem _ hj))
      exact retry_state_mem h
        (fun he => hids x (List.mem_cons_self _ _) he.symm) _

/-- C6: `syncAll` replays exactly the intents whose status is `queued`
or `failed` at the moment it starts, one at a time in queue order as a
sequential fold of awaited retries; intents with status `posting` or
`synced` are never retried by it and survive unchanged. -/
theorem syncAll_sequential_and_selective
    (intents : List IssuanceIntent) (post : String → Except String Unit)
    (hnd : (intents.map (fun i => i.id)).Nodup) :
    (∀ i, i ∈ toSync intents ↔
      i ∈ intents ∧ (i.status = .queued ∨ i.status = .failed)) ∧
    ((syncAll intents post).1
      = (toSync intents).foldl (fun st intent =>
          match retryIntent st intent (post intent.id) with
          | .ok st' => st'
          | .error _ => st) intents) ∧
    (∀ it ∈ intents, (it.status = .posting ∨ it.status = .synced) →
      it ∈ (syncAll intents post).1) := by
  have hfst : ∀ (L : List IssuanceIntent) (st : List IssuanceIntent)
      (s f : Nat),
      (L.foldl (syncStep post) (st, s, f)).1
        = L.foldl (fun st intent =>
            match retryIntent st intent (post intent.id) with
            | .ok st' => st'
            | .error _ => st) st := by
    intro L
    induction L with
    | nil => intro st s f; rfl
    | cons x t ih =>
        intro st s f
        simp only [List.foldl_cons]
        have hstep : syncStep post (st, s, f) x
            = ((match retryIntent st x (post x.id) with
                | .ok st' => st'
                | .error _ => st), s + 1, f) := by
          cases h : post x.id <;> simp [syncStep, retryIntent, h]
        rw [hstep]
        exact ih _ _ _
  refine ⟨?_, hfst _ _ _ _, ?_⟩
  · intro i
    simp [toSync, List.mem_filter]
  · intro it hit hstat
    rw [syncAll, hfst]
    refine sync_fold_preserves post _ _ it hit ?_
    intro j hj he
    have hjint : j ∈ intents := List.mem_of_mem_filter hj
    have hjeq : j = it := List.inj_on_of_nodup_map hnd hjint hit he
    subst hjeq
    have := (List.mem_filter.mp hj).2
    rcases hstat with h | h <;> simp [toSync, h] at this

/-- C6 (witness): on a two-intent queue (one `queued`, one `synced`)
with failing POSTs, only the queued intent is in the replay set and the
synced one survives untouched. -/
theorem syncAll_sequential_and_selective_witness :
    (({ id := "INT-2", createdAt := "t", status := .synced, error := none,
        payload := { flightId := "F", recipientPaxIds := [], passengers := none,
                     vouchers := [] } } : IssuanceIntent)
      ∈ (syncAll
          [{ id := "INT-1", createdAt := "t", status := .queued, error := none,
             payload := { flightId := "F", recipientPaxIds := [],
                          passengers := none, vouchers := [] } },
           { id := "INT-2", createdAt := "t", status := .synced, error := none,
             payload := { flightId := "F", recipientPaxIds := [],
                          passengers := none, vouchers := [] } }]
          (fun _ => .error "HTTP 502")).1) :=
  (syncAll_sequential_and_selective
    [{ id := "INT-1", createdAt := "t", status := .queued, error := none,
       payload := { flightId := "F", recipientPaxIds := [],
                    passengers := none, vouchers := [] } },
     { id := "INT-2", createdAt := "t", status := .synced, error := none,
       payload := { flightId := "F", recipientPaxIds := [],
                    passengers := none, vouchers := [] } }]
    (fun _ => .error "HTTP 502") (by decide)).2.2
    { id := "INT-2", createdAt := "t", status := .synced, error := none,
      payload := { flightId := "F", recipientPaxIds := [],
                   passengers := none, vouchers := [] } }
    (by decide) (Or.inr rfl)

/-! ### Records are never hard-deleted (server side) -/

theorem voidUpdate_forall₂ (l : List Issuance) (id : String)
    (r : Option String) :
    List.Forall₂ (fun a b => b = a ∨ (a.id = id ∧ b = voidFlip a r))
      l (voidUpdate l id r) := by
  induction l with
  | nil => constructor
  | cons i rest ih =>
      simp only [voidUpdate]
      by_cases h : (i.id == id) = true
      · simp only [h, if_true]
        exact List.Forall₂.cons (Or.inr ⟨by simpa using h, rfl⟩)
          (List.forall₂_same.mpr (fun x _ => Or.inl rfl))
      · simp only [h, Bool.false_eq_true, if_false]
        exact List.Forall₂.cons (Or.inl rfl) ih

theorem createdFrom_length :
    ∀ (records : List IssuanceInput) (ids : Nat → String) (start : Nat)
      (ts : String),
    (createdFrom records ids start ts).length = records.length := by
  intro records
  induction records with
  | nil => intro ids start ts; rfl
  | cons rec rest ih =>
      intro ids start ts
      simp [createdFrom, ih]

/-- C7 (counterexample): the offline queue's `remove` operation (wired
to the Delete button on the Offline page) hard-deletes an
`IssuanceIntent` from its collection: a one-intent queue becomes empty. -/
theorem c7_offline_remove_hard_deletes :
    removeIntent
      [{ id := "INT-1", createdAt := "2025-10-27T00:00:00Z",
         status := .queued, error := none,
         payload := { flightId := "QF401|2025-10-27|SYD-MEL",
                      recipientPaxIds := ["ABC123"], passengers := none,
                      vouchers := [{ type := .MEAL, amount := 30 }] } }]
      "INT-1" = [] ∧
    ([{ id := "INT-1", createdAt := "2025-10-27T00:00:00Z",
        status := .queued, error := none,
        payload := { flightId := "QF401|2025-10-27|SYD-MEL",
                     recipientPaxIds := ["ABC123"], passengers := none,
                     vouchers := [{ type := .MEAL, amount := 30 }] } }] :
      List IssuanceIntent).length = 1 := by
  constructor
  · rfl
  · rfl

/-- C7 (amended): server-side issuance records are never removed:
voiding keeps the list length, changes at most the matching
issuance(s), and on those only flips `status` to `void` (and optionally
`overrideReason`), leaving every other field unchanged; creation only
prepends, so the issuances list length never decreases.  (The offline
queue's own `remove`/`clear`, by contrast, do hard-delete intents.) -/
theorem void_flips_status_never_deletes
    (issuances : List Issuance) (id : String) (r : Option String)
    (body : PostBody) (ids : Nat → String) (ts : String) :
    ((voidIssuance issuances id r).1.length = issuances.length) ∧
    List.Forall₂ (fun a b => b = a ∨ (a.id = id ∧ b = voidFlip a r))
      issuances (voidIssuance issuances id r).1 ∧
    (∀ i, (voidFlip i r).id = i.id ∧ (voidFlip i r).batchId = i.batchId ∧
      (voidFlip i r).flightId = i.flightId ∧ (voidFlip i r).pnr = i.pnr ∧
      (voidFlip i r).passengerName = i.passengerName ∧
      (voidFlip i r).seat = i.seat ∧
      (voidFlip i r).voucherType = i.voucherType ∧
      (voidFlip i r).amount = i.amount ∧
      (voidFlip i r).currency = i.currency ∧
      (voidFlip i r).method = i.method ∧
      (voidFlip i r).externalId = i.externalId ∧
      (voidFlip i r).issuerId = i.issuerId ∧
      (voidFlip i r).issuerName = i.issuerName ∧
      (voidFlip i r).timestamp = i.timestamp ∧
      (voidFlip i r).notes = i.notes ∧
      (voidFlip i r).photoUrl = i.photoUrl ∧
      (voidFlip i r).status = .void ∧
      (r = none → (voidFlip i r).overrideReason = i.overrideReason)) ∧
    issuances.length ≤ (postIssuances issuances body ids ts).1.length := by
  have hf2 : List.Forall₂ (fun a b => b = a ∨ (a.id = id ∧ b = voidFlip a r))
      issuances (voidIssuance issuances id r).1 := by
    rw [voidIssuance]
    cases h : issuances.find? (fun i => i.id == id) with
    | none => exact List.forall₂_same.mpr (fun x _ => Or.inl rfl)
    | some i => exact voidUpdate_forall₂ issuances id r
  refine ⟨(List.Forall₂.length_eq hf2).symm, hf2, ?_, ?_⟩
  · intro i
    refine ⟨rfl, rfl, rfl, rfl, rfl, rfl, rfl, rfl, rfl, rfl, rfl, rfl, rfl,
      rfl, rfl, rfl, rfl, ?_⟩
    intro hr
    simp [voidFlip, hr]
  · simp only [postIssuances, List.length_append]
    omega

/-- C7 (amended, witness): the residual implication (`r = none` leaves
`overrideReason` alone) instantiated on a concrete issuance. -/
theorem void_flips_status_never_deletes_witness :
    (voidFlip
      { id := "I1", flightId := "F", pnr := "ABC123",
        passengerName := "John Smith", voucherType := .MEAL, amount := 30,
        method := "meal_paper", status := .issued, issuerId := "Demo User",
        issuerName := "Demo User", timestamp := "t" } none).overrideReason
      = ({ id := "I1", flightId := "F", pnr := "ABC123",
           passengerName := "John Smith", voucherType := .MEAL, amount := 30,
           method := "meal_paper", status := .issued, issuerId := "Demo User",
           issuerName := "Demo User", timestamp := "t" } :
          Issuance).overrideReason :=
  (((void_flips_status_never_deletes [] "I1" none (.array []) (fun _ => "")
      "t").2.2.1
    { id := "I1", flightId := "F", pnr := "ABC123",
      passengerName := "John Smith", voucherType := .MEAL, amount := 30,
      method := "meal_paper", status := .issued, issuerId := "Demo User",
      issuerName := "Demo User", timestamp := "t" }).2.2.2.2.2.2.2.2.2.2.2.2.2.2.2.2.2) rfl

theorem createdFrom_getElem? :
    ∀ (records : List IssuanceInput) (ids : Nat → String) (start : Nat)
      (ts : String) (j : Nat),
    (createdFrom records ids start ts)[j]?
      = (records[j]?).map (fun rec => mkIssuance rec (ids (start + j)) ts) := by
  intro records
  induction records with
  | nil => intro ids start ts j; simp [createdFrom]
  | cons rec rest ih =>
      intro ids start ts j
      cases j with
      | zero => simp [createdFrom]
      | succ k =>
          simp only [createdFrom, List.getElem?_cons_succ]
          rw [ih]
          have : start + 1 + k = start + (k + 1) := by omega
          rw [this]

/-- C9: `POST /api/issuances` wraps a single record into a batch,
assigns each submitted record a fresh id from the uuid supply, status
`issued` and the handler timestamp while carrying all submitted fields,
responds with exactly the created records and HTTP 201, and prepends
the created batch to the in-memory list, so a subsequent
`GET /api/issuances` (plain or flightId-filtered) returns the new batch
before all previously existing issuances. -/
theorem post_creates_prepends_newest_first
    (issuances : List Issuance) (body : PostBody) (ids : Nat → String)
    (ts : String) :
    (postIssuances issuances body ids ts).2.2 = 201 ∧
    (postIssuances issuances body ids ts).2.1.length
      = (postRecords body).length ∧
    (postIssuances issuances body ids ts).1
      = (postIssuances issuances body ids ts).2.1 ++ issuances ∧
    getIssuances (postIssuances issuances body ids ts).1 none
      = (postIssuances issuances body ids ts).2.1 ++ issuances ∧
    (∀ fid, getIssuances (postIssuances issuances body ids ts).1 (some fid)
      = ((postIssuances issuances body ids ts).2.1).filter
          (fun i => i.flightId == fid)
        ++ issuances.filter (fun i => i.flightId == fid)) ∧
    (∀ j, ((postIssuances issuances body ids ts).2.1)[j]?
      = ((postRecords body)[j]?).map (fun rec => mkIssuance rec (ids j) ts)) ∧
    (∀ rec nid t, (mkIssuance rec nid t).id = nid ∧
      (mkIssuance rec nid t).status = .issued ∧
      (mkIssuance rec nid t).timestamp = t ∧
      (mkIssuance rec nid t).batchId = rec.batchId ∧
      (mkIssuance rec nid t).flightId = rec.flightId ∧
      (mkIssuance rec nid t).pnr = rec.pnr ∧
      (mkIssuance rec nid t).passengerName = rec.passengerName ∧
      (mkIssuance rec nid t).seat = rec.seat ∧
      (mkIssuance rec nid t).voucherType = rec.voucherType ∧
      (mkIssuance rec nid t).amount = rec.amount ∧
      (mkIssuance rec nid t).currency = rec.currency ∧
      (mkIssuance rec nid t).method = rec.method ∧
      (mkIssuance rec nid t).externalId = rec.externalId ∧
      (mkIssuance rec nid t).issuerId = rec.issuerId ∧
      (mkIssuance rec nid t).issuerName = rec.issuerName ∧
      (mkIssuance rec nid t).notes = rec.notes ∧
      (mkIssuance rec nid t).photoUrl = rec.photoUrl ∧
      (mkIssuance rec nid t).overrideReason = rec.overrideReason) := by
  refine ⟨rfl, createdFrom_length _ _ _ _, rfl, rfl, ?_, ?_, ?_⟩
  · intro fid
    simp [postIssuances, getIssuances, List.filter_append]
  · intro j
    simpa using createdFrom_getElem? (postRecords body) ids 0 ts j
  · intro rec nid t
    exact ⟨rfl, rfl, rfl, rfl, rfl, rfl, rfl, rfl, rfl, rfl, rfl, rfl, rfl,
      rfl, rfl, rfl, rfl, rfl⟩

/-- C2: duplicate detection is the nested linear scan of
`getDuplicates`: a (selected passenger, pending voucher) pair is
flagged if and only if some existing issuance for the current flight
has the passenger's PNR, the pending voucher's type, and a status
other than `void`. -/
theorem duplicate_scan_characterisation
    (selected : List Passenger) (pending : List PendingVoucher)
    (existing : List Issuance) (flightId : String)
    (p : Passenger) (t : VoucherType) :
    (p, t) ∈ getDuplicates selected pending existing flightId ↔
      p ∈ selected ∧ ∃ v ∈ pending, v.type = t ∧
        ∃ iss ∈ existing, iss.pnr = p.pnr ∧ iss.flightId = flightId ∧
          iss.voucherType = t ∧ iss.status ≠ .void := by
  constructor
  · intro h
    rw [getDuplicates] at h
    obtain ⟨l, hl, hmem⟩ := List.mem_flatten.mp h
    obtain ⟨pax, hpax, rfl⟩ := List.mem_map.mp hl
    obtain ⟨v, hv, hg⟩ := List.mem_filterMap.mp hmem
    cases hfind : existing.find? (fun iss =>
        iss.pnr == pax.pnr && iss.flightId == flightId
          && iss.voucherType == v.type
          && iss.status != IssuanceStatus.void) with
    | none => rw [hfind] at hg; cases hg
    | some iss =>
        rw [hfind] at hg
        have hpt : pax = p ∧ v.type = t := by
          have := Option.some.inj hg
          exact ⟨congrArg Prod.fst this, congrArg Prod.snd this⟩
        obtain ⟨rfl, rfl⟩ := hpt
        have hmem2 : iss ∈ existing := List.mem_of_find?_eq_some hfind
        have hpred := List.find?_some hfind
        simp only [Bool.and_eq_true, beq_iff_eq, bne_iff_ne, ne_eq] at hpred
        exact ⟨hpax, v, hv, rfl,
          iss, hmem2, hpred.1.1.1, hpred.1.1.2, hpred.1.2, hpred.2⟩
  · rintro ⟨hp, v, hv, rfl, iss, hiss, h1, h2, h3, h4⟩
    rw [getDuplicates]
    refine List.mem_flatten.mpr ⟨_, List.mem_map_of_mem _ hp, ?_⟩
    refine List.mem_filterMap.mpr ⟨v, hv, ?_⟩
    have hsome : (existing.find? (fun iss =>
        iss.pnr == p.pnr && iss.flightId == flightId
          && iss.voucherType == v.type
          && iss.status != IssuanceStatus.void)).isSome :=
      List.find?_isSome.mpr ⟨iss, hiss, by simp [h1, h2, h3, h4]⟩
    cases hfind : existing.find? (fun iss =>
        iss.pnr == p.pnr && iss.flightId == flightId
          && iss.voucherType == v.type
          && iss.status != IssuanceStatus.void) with
    | none => rw [hfind] at hsome; cases hsome
    | some iss2 => simp [hfind]

/-- C2 (witness): a selected passenger with a pending MEAL voucher is
flagged against an existing non-void MEAL issuance with the same PNR on
the same flight. -/
theorem duplicate_scan_characterisation_witness :
    (({ id := "P1", pnr := "ABC123", name := "John Smith", seat := "12A",
        boarded := false, cabin := "Y" } : Passenger), VoucherType.MEAL)
      ∈ getDuplicates
        [{ id := "P1", pnr := "ABC123", name := "John Smith", seat := "12A",
           boarded := false, cabin := "Y" }]
        [{ id := 0, type := .MEAL, passengerId := "P1", amount := 30 }]
        [{ id := "I1", flightId := "QF401|2025-10-27|SYD-MEL",
           pnr := "ABC123", passengerName := "John Smith",
           voucherType := .MEAL, amount := 30, method := "meal_paper",
           status := .issued, issuerId := "Demo User",
           issuerName := "Demo User", timestamp := "t" }]
        "QF401|2025-10-27|SYD-MEL" :=
  (duplicate_scan_characterisation
    [{ id := "P1", pnr := "ABC123", name := "John Smith", seat := "12A",
       boarded := false, cabin := "Y" }]
    [{ id := 0, type := .MEAL, passengerId := "P1", amount := 30 }]
    [{ id := "I1", flightId := "QF401|2025-10-27|SYD-MEL",
       pnr := "ABC123", passengerName := "John Smith",
       voucherType := .MEAL, amount := 30, method := "meal_paper",
       status := .issued, issuerId := "Demo User",
       issuerName := "Demo User", timestamp := "t" }]
    "QF401|2025-10-27|SYD-MEL"
    { id := "P1", pnr := "ABC123", name := "John Smith", seat := "12A",
      boarded := false, cabin := "Y" } .MEAL).mpr
    ⟨List.mem_singleton.mpr rfl,
      { id := 0, type := .MEAL, passengerId := "P1", amount := 30 },
      List.mem_singleton.mpr rfl, rfl,
      { id := "I1", flightId := "QF401|2025-10-27|SYD-MEL",
        pnr := "ABC123", passengerName := "John Smith",
        voucherType := .MEAL, amount := 30, method := "meal_paper",
        status := .issued, issuerId := "Demo User",
        issuerName := "Demo User", timestamp := "t" },
      List.mem_singleton.mpr rfl, rfl, rfl, rfl, by decide⟩

/-! ### Batch issuance fan-out -/

/-- The five row fields the fan-out claim is about: PNR, passenger
name, seat, voucher type, amount. -/
def rowKey (r : IssuanceInput) :
    String × String × Option String × VoucherType × Nat :=
  (r.pnr, r.passengerName, r.seat, r.voucherType, r.amount)

theorem find_self_of_nodup :
    ∀ {selected : List Passenger},
    (selected.map (fun p => p.id)).Nodup →
    ∀ {p : Passenger}, p ∈ selected →
    selected.find? (fun q => q.id == p.id) = some p := by
  intro selected
  induction selected with
  | nil => intro _ p hp; cases hp
  | cons a rest ih =>
      intro hnd p hp
      have hnd2 : a.id ∉ rest.map (fun p => p.id) ∧
          (rest.map (fun p => p.id)).Nodup := by
        simpa [List.nodup_cons] using hnd
      rcases List.mem_cons.mp hp with rfl | hmem
      · exact List.find?_cons_of_pos rest (by simp)
      · have hane : ¬ (a.id == p.id) = true := by
          intro hcontra
          exact hnd2.1 (by
            have : a.id = p.id := by simpa using hcontra
            rw [this]
            exact List.mem_map_of_mem _ hmem)
        rw [List.find?_cons_of_neg rest hane]
        exact ih hnd2.2 hmem

theorem buildRows_newVouchers
    (batchId flightId : String) (user : Option User)
    (selected : List Passenger)
    (hnd : (selected.map (fun p => p.id)).Nodup)
    (dups : List (Passenger × VoucherType)) (orr : String)
    (notesMap : Nat → String → Option String) (uber : Nat → Option String)
    (presets : List Preset) (category : Option DisruptionCategory)
    (t : VoucherType) :
    ∀ (sub : List Passenger) (freshId : Nat), (∀ p ∈ sub, p ∈ selected) →
    (buildRows batchId flightId user selected
        (newVouchersFor presets category t sub freshId)
        dups orr notesMap uber).map rowKey
      = sub.map (fun p => (p.pnr, p.name, some p.seat, t,
          getDefaultAmount presets category t)) := by
  intro sub
  induction sub with
  | nil => intro _ _; rfl
  | cons p rest ih =>
      intro freshId hsub
      have hfind := find_self_of_nodup hnd (hsub p (List.mem_cons_self _ _))
      simp only [newVouchersFor, buildRows, List.filterMap_cons,
        mkPendingVoucher, hfind, List.map_cons]
      have htail := ih (freshId + 1) (fun q hq => hsub q (List.mem_cons_of_mem _ hq))
      simp only [buildRows] at htail
      rw [htail]
      rfl

theorem addVouchers_rowKeys
    (batchId flightId : String) (user : Option User)
    (selected : List Passenger)
    (hnd : (selected.map (fun p => p.id)).Nodup)
    (dups : List (Passenger × VoucherType)) (orr : String)
    (notesMap : Nat → String → Option String) (uber : Nat → Option String)
    (presets : List Preset) (category : Option DisruptionCategory) :
    ∀ (types : List VoucherType) (st : WizardState),
    (buildRows batchId flightId user selected
        (types.foldl (addVoucher presets category selected) st).pendingVouchers
        dups orr notesMap uber).map rowKey
      = (buildRows batchId flightId user selected st.pendingVouchers
          dups orr notesMap uber).map rowKey
        ++ (types.map (fun t => selected.map (fun p =>
            (p.pnr, p.name, some p.seat, t,
              getDefaultAmount presets category t)))).flatten := by
  intro types
  induction types with
  | nil => intro st; simp
  | cons t ts ih =>
      intro st
      simp only [List.foldl_cons]
      rw [ih]
      have hsplit : buildRows batchId flightId user selected
          (addVoucher presets category selected st t).pendingVouchers
          dups orr notesMap uber
        = buildRows batchId flightId user selected st.pendingVouchers
            dups orr notesMap uber
          ++ buildRows batchId flightId user selected
              (newVouchersFor presets category t selected st.nextId)
              dups orr notesMap uber := by
        simp [addVoucher, buildRows, List.filterMap_append]
      rw [hsplit, List.map_append,
        buildRows_newVouchers batchId flightId user selected hnd dups orr
          notesMap uber presets category t selected st.nextId
          (fun _ hp => hp)]
      simp [List.append_assoc]

/-- C1: batch issuance fans out as passengers × voucher types: with the
selection unchanged, `k` `addVoucher` clicks for types `t1..tk` over
`n` distinctly-identified selected passengers produce `n·k` pending
vouchers, and submission builds exactly `n·k` rows — one per
(voucher-type-choice, passenger) pair, carrying that passenger's PNR,
name and seat and that voucher's type and default amount — which the
mock POST turns into exactly `n·k` issuance records. -/
theorem batch_issuance_fanout
    (selected : List Passenger) (types : List VoucherType)
    (presets : List Preset) (category : Option DisruptionCategory)
    (batchId flightId : String) (user : Option User)
    (dups : List (Passenger × VoucherType)) (overrideReason : String)
    (notesMap : Nat → String → Option String) (uber : Nat → Option String)
    (issuances : List Issuance) (ids : Nat → String) (ts : String)
    (hnd : (selected.map (fun p => p.id)).Nodup) :
    (buildRows batchId flightId user selected
        (addVouchers presets category selected types).pendingVouchers
        dups overrideReason notesMap uber).length
      = selected.length * types.length ∧
    (buildRows batchId flightId user selected
        (addVouchers presets category selected types).pendingVouchers
        dups overrideReason notesMap uber).map rowKey
      = (types.map (fun t => selected.map (fun p =>
          (p.pnr, p.name, some p.seat, t,
            getDefaultAmount presets category t)))).flatten ∧
    (postIssuances issuances
        (.array (buildRows batchId flightId user selected
          (addVouchers presets category selected types).pendingVouchers
          dups overrideReason notesMap uber)) ids ts).2.1.length
      = selected.length * types.length := by
  have hmap := addVouchers_rowKeys batchId flightId user selected hnd dups
    overrideReason notesMap uber presets category types
    { pendingVouchers := [], nextId := 0 }
  simp only [addVouchers] at *
  rw [show (buildRows batchId flightId user selected
      ([] : List PendingVoucher) dups overrideReason notesMap uber) = []
    from rfl] at hmap
  simp only [List.map_nil, List.nil_append] at hmap
  have hlen : (buildRows batchId flightId user selected
      (types.foldl (addVoucher presets category selected)
        { pendingVouchers := [], nextId := 0 }).pendingVouchers
      dups overrideReason notesMap uber).length
      = selected.length * types.length := by
    have h1 : (buildRows batchId flightId user selected
        (types.foldl (addVoucher presets category selected)
          { pendingVouchers := [], nextId := 0 }).pendingVouchers
        dups overrideReason notesMap uber).length
        = ((buildRows batchId flightId user selected
            (types.foldl (addVoucher presets category selected)
              { pendingVouchers := [], nextId := 0 }).pendingVouchers
            dups overrideReason notesMap uber).map rowKey).length := by
      simp
    rw [h1, hmap, List.length_flatten, List.map_map]
    simp only [Function.comp_def, List.length_map]
    rw [List.map_const', List.sum_const_nat, Nat.mul_comm]
  refine ⟨hlen, hmap, ?_⟩
  simp only [postIssuances, postRecords]
  rw [createdFrom_length]
  exact hlen

/-- C1 (witness): one selected passenger and one voucher-type choice
yield exactly one issuance row carrying that passenger's PNR, name and
seat. -/
theorem batch_issuance_fanout_witness :
    (buildRows "B1" "QF401|2025-10-27|SYD-MEL" none
        [{ id := "P1", pnr := "ABC123", name := "John Smith", seat := "12A",
           boarded := false, cabin := "Y" }]
        (addVouchers [] none
          [{ id := "P1", pnr := "ABC123", name := "John Smith", seat := "12A",
             boarded := false, cabin := "Y" }]
          [.MEAL]).pendingVouchers
        [] "" (fun _ _ => none) (fun _ => none)).length = 1 ∧
    (buildRows "B1" "QF401|2025-10-27|SYD-MEL" none
        [{ id := "P1", pnr := "ABC123", name := "John Smith", seat := "12A",
           boarded := false, cabin := "Y" }]
        (addVouchers [] none
          [{ id := "P1", pnr := "ABC123", name := "John Smith", seat := "12A",
             boarded := false, cabin := "Y" }]
          [.MEAL]).pendingVouchers
        [] "" (fun _ _ => none) (fun _ => none)).map rowKey
      = [("ABC123", "John Smith", some "12A", VoucherType.MEAL, 30)] := by
  have h := batch_issuance_fanout
    [{ id := "P1", pnr := "ABC123", name := "John Smith", seat := "12A",
       boarded := false, cabin := "Y" }]
    [.MEAL] [] none "B1" "QF401|2025-10-27|SYD-MEL" none [] ""
    (fun _ _ => none) (fun _ => none) [] (fun _ => "") ""
    (by decide)
  exact ⟨h.1, by rw [h.2.1]; rfl⟩

end Voucher
